import Mathlib

/-!
Shallow embedding of `compute_sales.py`: a batch program that loads a JSON
price catalogue and a JSON sales record, joins them, sums price × quantity,
and reports row-level errors.  Python/JSON dynamic values are modelled by the
inductive `JsonVal`; Python numbers (int/float/bool) are modelled as rationals
(a `num` additionally carries the string Python's `str()` would print for it,
since the rational value alone does not determine that text).  Fallible Python
code (unhandled exceptions) is modelled with `Except PyError`.
-/

namespace ComputeSales

/-- A parsed JSON document / in-memory Python value.  `num q lit` is a Python
int or float with rational value `q` whose `str()` rendering is `lit`. -/
inductive JsonVal where
  | null : JsonVal
  | bool (b : Bool) : JsonVal
  | num (q : ℚ) (lit : String) : JsonVal
  | str (s : String) : JsonVal
  | arr (elems : List JsonVal) : JsonVal
  | obj (fields : List (String × JsonVal)) : JsonVal

mutual

/-- Structural boolean equality on `JsonVal` (mutually with its nested
lists); numeric literals compare by value and rendering. -/
def beqJ : JsonVal → JsonVal → Bool
  | .null, .null => true
  | .bool a, .bool b => a == b
  | .num q l, .num r m => q == r && l == m
  | .str a, .str b => a == b
  | .arr xs, .arr ys => beqJList xs ys
  | .obj fs, .obj gs => beqJFields fs gs
  | _, _ => false

def beqJList : List JsonVal → List JsonVal → Bool
  | [], [] => true
  | x :: xs, y :: ys => beqJ x y && beqJList xs ys
  | _, _ => false

def beqJFields : List (String × JsonVal) → List (String × JsonVal) → Bool
  | [], [] => true
  | (k, v) :: fs, (l, w) :: gs => k == l && beqJ v w && beqJFields fs gs
  | _, _ => false

end

instance : BEq JsonVal := ⟨beqJ⟩

/-- The Python numeric value of an int/float/bool, if any.  In Python,
`bool` is a subclass of `int`, so `True`/`False` count as numeric 1/0. -/
def toNumQ : JsonVal → Option ℚ
  | .bool b => some (if b then 1 else 0)
  | .num q _ => some q
  | _ => none

/-- `isinstance(v, (int, float))` (true for bools: `bool` subclasses `int`). -/
def isNumericPy (v : JsonVal) : Bool := (toNumQ v).isSome

/-- Whether the Python value is hashable (usable as a dict key). -/
def hashablePy : JsonVal → Bool
  | .arr _ => false
  | .obj _ => false
  | _ => true

/-- Python `==` on hashable scalar values: numeric values (ints, floats,
bools) compare by value across types, otherwise same-type structural
equality.  Only applied to dict keys, which are hashable. -/
def pyEq (a b : JsonVal) : Bool :=
  match toNumQ a, toNumQ b with
  | some x, some y => x == y
  | none, none => beqJ a b
  | _, _ => false

mutual

/-- Python `repr()` of a value (string escaping inside quotes not modelled). -/
def pyRepr : JsonVal → String
  | .null => "None"
  | .bool true => "True"
  | .bool false => "False"
  | .num _ lit => lit
  | .str s => "\x27" ++ s ++ "\x27"
  | .arr xs => "[" ++ pyReprList xs ++ "]"
  | .obj fs => "\x7b" ++ pyReprFields fs ++ "\x7d"

def pyReprList : List JsonVal → String
  | [] => ""
  | [x] => pyRepr x
  | x :: xs => pyRepr x ++ ", " ++ pyReprList xs

def pyReprFields : List (String × JsonVal) → String
  | [] => ""
  | [(k, v)] => "\x27" ++ k ++ "\x27: " ++ pyRepr v
  | (k, v) :: fs => "\x27" ++ k ++ "\x27: " ++ pyRepr v ++ ", " ++ pyReprFields fs

end

/-- Python `str()` of a value, as used by f-string interpolation: like
`repr()` except that strings print without quotes. -/
def pyStr : JsonVal → String
  | .null => "None"
  | .bool true => "True"
  | .bool false => "False"
  | .num _ lit => lit
  | .str s => s
  | v => pyRepr v

/-- `v is None` (a JSON `null` parses to Python `None`). -/
def isNull : JsonVal → Bool
  | .null => true
  | _ => false

/-- A Python dict is modelled as the list of key/value pairs inserted into
it, in insertion order; lookup takes the LAST matching pair, which gives
the same observable behaviour as overwrite-on-insert. -/
abbrev PyDict := List (JsonVal × JsonVal)

/-- The pair a dict lookup of `k` finds, if any (last write wins). -/
def dictFind (d : PyDict) (k : JsonVal) : Option (JsonVal × JsonVal) :=
  (d.filter (fun e => pyEq e.1 k)).getLast?

/-- Python `k in d`. -/
def dictMem (d : PyDict) (k : JsonVal) : Bool := (dictFind d k).isSome

/-- Python `d[k]` when the key is present. -/
def dictGet (d : PyDict) (k : JsonVal) : Option JsonVal := (dictFind d k).map Prod.snd

/-- Lookup of a string key in a parsed JSON object (Python dict with string
keys); last binding wins, matching `json.load` duplicate-key behaviour. -/
def objGet (fs : List (String × JsonVal)) (k : String) : Option JsonVal :=
  ((fs.filter (fun e => e.1 == k)).getLast?).map Prod.snd

/-- Python `d.get(k)`: `None` both when the key is absent and when its
value is `null`. -/
def getOrNull (fs : List (String × JsonVal)) (k : String) : JsonVal :=
  (objGet fs k).getD .null

/-- An unhandled Python exception (the kinds `compute_total_sales` can
raise). -/
inductive PyError where
  | keyError (key : String)
  | typeError
  | attributeError
deriving DecidableEq, Repr

/-- One step of the dict comprehension on line 78 of `compute_sales.py`:
`item["title"]: item["price"]`.  Raises `KeyError` when a key is missing,
`TypeError` when the item is not a dict (not subscriptable by a string) or
when the title is unhashable. -/
def entryKV : JsonVal → Except PyError (JsonVal × JsonVal)
  | .obj fs =>
      match objGet fs "title" with
      | none => .error (.keyError "title")
      | some t =>
          match objGet fs "price" with
          | none => .error (.keyError "price")
          | some p => if hashablePy t then .ok (t, p) else .error .typeError
  | _ => .error .typeError

/-- `price_dict = {item["title"]: item["price"] for item in price_catalogue}`. -/
def buildPriceDict (price_catalogue : List JsonVal) : Except PyError PyDict :=
  price_catalogue.mapM entryKV

/-- Error string of line 83: `f"Registro inválido en ventas: {sale}"`. -/
def invalidRecordMsg (sale : JsonVal) : String :=
  "Registro inválido en ventas: " ++ pyStr sale

/-- Error string of line 86: `f"{product} no encontrado en el catálogo"`. -/
def notFoundMsg (product : JsonVal) : String :=
  pyStr product ++ " no encontrado en el catálogo"

/-- Error string of line 89: `f"Cantidad {quantity} inválido para {product}"`. -/
def invalidQtyMsg (quantity product : JsonVal) : String :=
  "Cantidad " ++ pyStr quantity ++ " inválido para " ++ pyStr product

/-- `quantity < 0` for a numeric Python value (only evaluated when
`isinstance(quantity, (int, float))` holds, by short-circuit `or`). -/
def qtyNeg (v : JsonVal) : Bool := decide ((toNumQ v).getD 0 < 0)

/-- The loop body of `compute_total_sales` (lines 79–92), acting on the
accumulator `(total_cost, errors)`.  `sale.get` raises `AttributeError`
when the sale is not a dict; the membership test raises `TypeError` on an
unhashable product; `total_cost += price * quantity` raises `TypeError`
when the price is not numeric (for every non-numeric price some step of
`*`/`+=` raises in Python). -/
def processSale (price_dict : PyDict) (acc : ℚ × List String) (sale : JsonVal) :
    Except PyError (ℚ × List String) :=
  match sale with
  | .obj fs =>
      let product := getOrNull fs "Product"
      let quantity := getOrNull fs "Quantity"
      if isNull product || isNull quantity then
        .ok (acc.1, acc.2 ++ [invalidRecordMsg (.obj fs)])
      else if hashablePy product = false then
        .error .typeError
      else if dictMem price_dict product = false then
        .ok (acc.1, acc.2 ++ [notFoundMsg product])
      else if isNumericPy quantity = false || qtyNeg quantity then
        .ok (acc.1, acc.2 ++ [invalidQtyMsg quantity product])
      else
        match toNumQ ((dictGet price_dict product).getD .null) with
        | some p => .ok (acc.1 + p * (toNumQ quantity).getD 0, acc.2)
        | none => .error .typeError
  | _ => .error .attributeError

/-- `compute_total_sales(price_catalogue, sales_record)` (lines 74–93),
with Python numbers as rationals (the source accumulates in floating
point). -/
def compute_total_sales (price_catalogue sales_record : List JsonVal) :
    Except PyError (ℚ × List String) := do
  let price_dict ← buildPriceDict price_catalogue
  sales_record.foldlM (processSale price_dict) ((0 : ℚ), ([] : List String))

/-- The outcome of `open` + `json.load` on a file, abstracting the file
system: a parsed document, one of the three caught exception kinds, or an
exception of a kind the `except` clauses of lines 36–41 do not cover —
e.g. `UnicodeDecodeError` on a non-UTF-8 file (a `ValueError` that is not
a `json.JSONDecodeError`) or `RecursionError` on deeply nested input —
carried as its rendering. -/
inductive ReadOutcome where
  | ok (v : JsonVal)
  | fileNotFound
  | decodeError
  | osError (msg : String)
  | uncaught (msg : String)

/-- `load_json_file(file_path)` (lines 28–42), as a function of the read
outcome.  The first component is what reaches the caller: the loaded list
(Python truthy result) or `none` (Python `None`) for the caught failure
kinds, or the re-raised exception for an outcome no `except` clause
covers.  The second component is the diagnostics it prints (nothing is
printed on the uncaught path). -/
def load_json_file (file_path : String) :
    ReadOutcome → Except String (Option (List JsonVal)) × List String
  | .ok (.arr xs) => (.ok (some xs), [])
  | .ok _ =>
      (.ok none, ["Error: El archivo " ++ file_path ++ " no es un JSON válida."])
  | .fileNotFound =>
      (.ok none, ["Error: El archivo " ++ file_path ++ " no se encontró."])
  | .decodeError =>
      (.ok none, ["Error: El archivo " ++ file_path ++ " tiene un formato JSON inválido."])
  | .osError m =>
      (.ok none, ["Error inesperado al leer " ++ file_path ++ ": " ++ m])
  | .uncaught m => (.error m, [])

/-- The numeric value of a decimal digit character, if it is one. -/
def digitVal (c : Char) : Option Nat :=
  if 48 ≤ c.toNat ∧ c.toNat ≤ 57 then some (c.toNat - 48) else none

/-- The natural number denoted by a non-empty list of decimal digits. -/
def natOfDigits : List Char → Option Nat
  | [] => none
  | [c] => digitVal c
  | c :: cs =>
      match digitVal c, natOfDigits cs with
      | some d, some n => some (d * 10 ^ cs.length + n)
      | _, _ => none

/-- Python `int(s)` on a plain decimal string with an optional leading
minus sign.  (Python also accepts surrounding whitespace, a plus sign and
digit-group underscores; no claim depends on those spellings.) -/
def parseIntPy (s : String) : Option Int :=
  match s.data with
  | '-' :: cs => (natOfDigits cs).map (fun n => -(n : Int))
  | cs => (natOfDigits cs).map (fun n => (n : Int))

/-- Python `repr()` of a list of strings, as printed for a malformed CSV
row. -/
def reprStrList (row : List String) : String :=
  "[" ++ String.intercalate ", " (row.map (fun s => "\x27" ++ s ++ "\x27")) ++ "]"

/-- One data row of `load_csv_file` (lines 52–66): a two-field row with an
integer quantity becomes `{"product": ..., "quantity": ...}`; otherwise a
diagnostic is printed and the row is skipped.  `int()` is modelled by
`parseIntPy`. -/
def csvRowStep (file_path : String) (acc : List JsonVal × List String)
    (row : List String) : List JsonVal × List String :=
  match row with
  | [product, quantity] =>
      match parseIntPy quantity with
      | some n =>
          (acc.1 ++ [JsonVal.obj [("product", .str product), ("quantity", .num (n : ℚ) (toString n))]],
           acc.2)
      | none =>
          (acc.1, acc.2 ++ ["Error: " ++ quantity ++ " inválido para " ++ product])
  | _ =>
      (acc.1, acc.2 ++ ["Error: Fila inválida en " ++ file_path ++ ": " ++ reprStrList row])

/-- `load_csv_file(file_path)` (lines 45–71) on the parsed CSV rows
(header first; `next(reader)` discards it).  Returns the record list and
the printed diagnostics.  `main` never calls this function. -/
def load_csv_file (file_path : String) (rows : List (List String)) :
    List JsonVal × List String :=
  (rows.drop 1).foldl (csvRowStep file_path) ([], [])

/-- `"{:.2f}".format` on a rational total: rounds to hundredths (the
source formats an IEEE double; on these rationals the same digits). -/
def format2 (q : ℚ) : String :=
  let n : Int := round (q * 100)
  let sign := if n < 0 then "-" else ""
  let m := n.natAbs
  sign ++ toString (m / 100) ++ "." ++ (if m % 100 < 10 then "0" else "") ++ toString (m % 100)

/-- `result_message` (lines 111–114); the elapsed time is outside the
model and enters as its already-formatted 4-decimal string. -/
def result_message (total_cost : ℚ) (execution_time : String) : String :=
  "Total de ventas: $" ++ format2 total_cost ++ "\n" ++
    "Tiempo de ejecución: " ++ execution_time ++ " segundos\n"

/-- The error block appended after the report when errors exist: a header
line and one ` - `-prefixed line per error (lines 116–119 and 122–125
produce the same characters). -/
def errorBlock (errors : List String) : String :=
  if errors.isEmpty then ""
  else "Errores encontrados:\n" ++ String.join (errors.map (fun e => " - " ++ e ++ "\n"))

/-- Everything `main` prints to stdout from line 115 on: `print` appends a
newline to `result_message`. -/
def stdoutReport (total_cost : ℚ) (execution_time : String) (errors : List String) : String :=
  result_message total_cost execution_time ++ "\n" ++ errorBlock errors

/-- The full contents written to the fixed-name results file
`SalesTC1Results.txt` (lines 120–125). -/
def fileReport (total_cost : ℚ) (execution_time : String) (errors : List String) : String :=
  result_message total_cost execution_time ++ errorBlock errors

/-- Python truthiness of `sales_record` in `main` line 106: `None` and the
empty list are falsy. -/
def truthySales : Option (List JsonVal) → Bool
  | none => false
  | some l => !l.isEmpty

/-- The outcome of `open("SalesTC1Results.txt", "w")` plus the writes
(lines 120–125): success, or an `OSError` that propagates out of `main`. -/
inductive WriteOutcome where
  | ok
  | osError (msg : String)

/-- The exit code of `main` (lines 96–125) as a function of the argument
count (`len(sys.argv)`), the two loader results (when the loads return
rather than raise), and the results-file write outcome.  Past the guard
of line 106, `main` can still exit 1 through an uncaught exception: from
`compute_total_sales` (line 109) or from writing the results file (lines
120–125); Python exits with code 1 on an uncaught exception.  The final
catch-all arm is unreachable: the guard only falls through when both
loads produced values. -/
def mainExitCode (argc : Nat) (price_catalogue sales_record : Option (List JsonVal))
    (w : WriteOutcome) : Nat :=
  if argc ≠ 3 then 1
  else if price_catalogue.isNone || !truthySales sales_record then 1
  else match price_catalogue, sales_record with
    | some cat, some sales =>
        match compute_total_sales cat sales with
        | .error _ => 1
        | .ok _ =>
            match w with
            | .ok => 0
            | .osError _ => 1
    | _, _ => 1

/-- The effect one sale record has on its own, read off the loop body: the
contribution to the total and the error message, if any — or the raised
exception.  `processSale_char` proves this matches `processSale`. -/
def rowOutcome (price_dict : PyDict) (sale : JsonVal) : Except PyError (ℚ × Option String) :=
  match sale with
  | .obj fs =>
      let product := getOrNull fs "Product"
      let quantity := getOrNull fs "Quantity"
      if isNull product || isNull quantity then
        .ok (0, some (invalidRecordMsg (.obj fs)))
      else if hashablePy product = false then
        .error .typeError
      else if dictMem price_dict product = false then
        .ok (0, some (notFoundMsg product))
      else if isNumericPy quantity = false || qtyNeg quantity then
        .ok (0, some (invalidQtyMsg quantity product))
      else
        match toNumQ ((dictGet price_dict product).getD .null) with
        | some p => .ok (p * (toNumQ quantity).getD 0, none)
        | none => .error .typeError
  | _ => .error .attributeError

/-- The amount a sale record adds to the running total (0 for skipped or
raising records). -/
def rowContrib (price_dict : PyDict) (sale : JsonVal) : ℚ :=
  match rowOutcome price_dict sale with
  | .ok r => r.1
  | .error _ => 0

/-- The row-level error message a sale record appends, if any. -/
def rowErr (price_dict : PyDict) (sale : JsonVal) : Option String :=
  match rowOutcome price_dict sale with
  | .ok r => r.2
  | .error _ => none

/-- Whether processing the sale record raises an exception. -/
def rowRaises (price_dict : PyDict) (sale : JsonVal) : Bool :=
  match rowOutcome price_dict sale with
  | .ok _ => false
  | .error _ => true

/-- Claim-side validity of a sale record against a price dict: both fields
present and non-null, a catalogued product, a numeric non-negative
quantity. -/
def validSaleB (price_dict : PyDict) (sale : JsonVal) : Bool :=
  match sale with
  | .obj fs =>
      !isNull (getOrNull fs "Product") && !isNull (getOrNull fs "Quantity") &&
        dictMem price_dict (getOrNull fs "Product") &&
        isNumericPy (getOrNull fs "Quantity") && !qtyNeg (getOrNull fs "Quantity")
  | _ => false

/-- Claim-side value of a sale record: catalogue price times quantity. -/
def saleValue (price_dict : PyDict) (sale : JsonVal) : ℚ :=
  match sale with
  | .obj fs =>
      (toNumQ ((dictGet price_dict (getOrNull fs "Product")).getD .null)).getD 0 *
        (toNumQ (getOrNull fs "Quantity")).getD 0
  | _ => 0

/-- Spec-side description of the report: its lines, in order — the total
line, the time line and, when errors exist, a header plus one ` - `
bullet per error. -/
def reportLines (total_cost : ℚ) (execution_time : String) (errors : List String) :
    List String :=
  ["Total de ventas: $" ++ format2 total_cost,
   "Tiempo de ejecución: " ++ execution_time ++ " segundos"] ++
    (if errors.isEmpty then []
     else "Errores encontrados:" :: errors.map (fun e => " - " ++ e))

/-- The spec scenario catalogue: `[{"title": "Apple", "price": 2.0}]`. -/
def catApple : List JsonVal := [.obj [("title", .str "Apple"), ("price", .num 2 "2.0")]]

/-- The price dict `{"Apple": 2.0}` built from `catApple`. -/
def pdApple : PyDict := [(.str "Apple", .num 2 "2.0")]

/-- The spec scenario sales: `[{"Product": "Apple", "Quantity": 3}]`. -/
def salesApple : List JsonVal := [.obj [("Product", .str "Apple"), ("Quantity", .num 3 "3")]]

/-- The second spec scenario sales: `[{"Product": "Banana", "Quantity": 1}]`. -/
def salesBanana : List JsonVal := [.obj [("Product", .str "Banana"), ("Quantity", .num 1 "1")]]

/-- A sale of a catalogued product with a negative quantity. -/
def salesNegQty : List JsonVal := [.obj [("Product", .str "Apple"), ("Quantity", .num (-1) "-1")]]

/-- A sale record in the lowercase-key shape `load_csv_file` produces. -/
def saleLowercase : JsonVal := .obj [("product", .str "Apple"), ("quantity", .num 3 "3")]

/-- The loop body equals its per-row reading: it adds the row's
contribution to the total and appends the row's error, if any. -/
theorem processSale_char (pd : PyDict) (acc : ℚ × List String) (s : JsonVal) :
    processSale pd acc s =
      (rowOutcome pd s).map (fun r => (acc.1 + r.1, acc.2 ++ r.2.toList)) := by
  cases s with
  | obj fs =>
      simp only [processSale, rowOutcome]
      split_ifs with h1 h2 h3 h4
      · simp [Except.map]
      · rfl
      · simp [Except.map]
      · simp [Except.map]
      · cases htn : toNumQ ((dictGet pd (getOrNull fs "Product")).getD JsonVal.null) <;>
          simp [Except.map]
  | null => rfl
  | bool b => rfl
  | num q lit => rfl
  | str s => rfl
  | arr xs => rfl

/-- When no record of the sales list raises, the fold over the loop body
returns the accumulated contributions and the accumulated row errors, in
encounter order. -/
theorem fold_ok_of_no_raise (pd : PyDict) :
    ∀ sales : List JsonVal, (∀ s ∈ sales, rowRaises pd s = false) →
    ∀ t0 e0, sales.foldlM (processSale pd) (t0, e0) =
      .ok (t0 + (sales.map (rowContrib pd)).sum, e0 ++ sales.filterMap (rowErr pd)) := by
  intro sales
  induction sales with
  | nil => intro _ t0 e0; simp [List.foldlM_nil, pure, Except.pure]
  | cons s rest ih =>
      intro h t0 e0
      have hs : rowRaises pd s = false := h s (List.mem_cons_self s rest)
      have hrest : ∀ x ∈ rest, rowRaises pd x = false :=
        fun x hx => h x (List.mem_cons_of_mem s hx)
      rw [List.foldlM_cons, processSale_char]
      cases hro : rowOutcome pd s with
      | error e => rw [rowRaises, hro] at hs; simp at hs
      | ok r =>
          have hc : rowContrib pd s = r.1 := by rw [rowContrib, hro]
          have he : rowErr pd s = r.2 := by rw [rowErr, hro]
          simp only [Except.map, bind, Except.bind]
          rw [ih hrest]
          cases hr2 : r.2 with
          | none => simp [List.filterMap_cons, hc, he, hr2, add_assoc]
          | some m => simp [List.filterMap_cons, hc, he, hr2, add_assoc]

/-- If the fold over the loop body succeeds, no record raised. -/
theorem no_raise_of_fold_ok (pd : PyDict) :
    ∀ (sales : List JsonVal) (acc res : ℚ × List String),
      sales.foldlM (processSale pd) acc = .ok res →
      ∀ s ∈ sales, rowRaises pd s = false := by
  intro sales
  induction sales with
  | nil => intro acc res _ s hs; simp at hs
  | cons s rest ih =>
      intro acc res hfold x hx
      rw [List.foldlM_cons] at hfold
      cases hps : processSale pd acc s with
      | error e => rw [hps] at hfold; simp [bind, Except.bind] at hfold
      | ok acc2 =>
          rw [hps] at hfold
          simp only [bind, Except.bind] at hfold
          rcases List.mem_cons.1 hx with h | h
          · subst h
            rw [processSale_char] at hps
            cases hro : rowOutcome pd x with
            | error e => rw [hro] at hps; simp [Except.map] at hps
            | ok r => rw [rowRaises, hro]
          · exact ih acc2 res hfold x h

/-- A successful `compute_total_sales` run, characterised: the total is the
sum of per-row contributions, the errors are the per-row errors in
encounter order, and every row was processed without raising. -/
theorem compute_ok_char {cat sales : List JsonVal} {pd : PyDict} {t : ℚ}
    {errs : List String} (hb : buildPriceDict cat = .ok pd)
    (hc : compute_total_sales cat sales = .ok (t, errs)) :
    t = (sales.map (rowContrib pd)).sum ∧ errs = sales.filterMap (rowErr pd) ∧
      ∀ s ∈ sales, rowRaises pd s = false := by
  unfold compute_total_sales at hc
  rw [hb] at hc
  simp only [bind, Except.bind] at hc
  have hnr := no_raise_of_fold_ok pd sales _ _ hc
  rw [fold_ok_of_no_raise pd sales hnr 0 []] at hc
  simp only [Except.ok.injEq, Prod.mk.injEq] at hc
  exact ⟨by rw [← hc.1, zero_add], by rw [← hc.2, List.nil_append], hnr⟩

/-- What a dict lookup finds is a stored pair whose key is `==`-equal to
the query. -/
theorem dictFind_mem {pd : PyDict} {k : JsonVal} {kv : JsonVal × JsonVal}
    (h : dictFind pd k = some kv) : kv ∈ pd ∧ pyEq kv.1 k = true := by
  have hm : kv ∈ pd.filter (fun e => pyEq e.1 k) :=
    List.mem_of_mem_getLast? (Option.mem_def.mpr h)
  exact ⟨(List.mem_filter.1 hm).1, (List.mem_filter.1 hm).2⟩

/-- Python `==`-equality preserves hashability. -/
theorem hashable_of_pyEq {a b : JsonVal} (ha : hashablePy a = true)
    (h : pyEq a b = true) : hashablePy b = true := by
  cases a <;> cases b <;> simp_all [pyEq, toNumQ, hashablePy, beqJ]

/-- A hashable value is `==`-equal to itself. -/
theorem pyEq_refl_hashable {t : JsonVal} (h : hashablePy t = true) : pyEq t t = true := by
  cases t <;> simp_all [pyEq, toNumQ, hashablePy, beqJ]

/-- A key the dict comprehension accepted is hashable. -/
theorem entryKV_ok_hashable {e : JsonVal} {kv : JsonVal × JsonVal}
    (h : entryKV e = .ok kv) : hashablePy kv.1 = true := by
  cases e with
  | obj fs =>
      simp only [entryKV] at h
      cases ht : objGet fs "title" with
      | none => rw [ht] at h; simp at h
      | some t =>
          rw [ht] at h
          cases hp : objGet fs "price" with
          | none => rw [hp] at h; simp at h
          | some p =>
              rw [hp] at h
              dsimp only at h
              split_ifs at h with hh
              simp only [Except.ok.injEq] at h
              rw [← h]; exact hh
  | null => simp [entryKV] at h
  | bool b => simp [entryKV] at h
  | num q lit => simp [entryKV] at h
  | str s => simp [entryKV] at h
  | arr xs => simp [entryKV] at h

/-- Peeling one catalogue entry off a successful dict build. -/
theorem buildPriceDict_cons {e : JsonVal} {rest : List JsonVal} {pd : PyDict}
    (h : buildPriceDict (e :: rest) = .ok pd) :
    ∃ kv pd', entryKV e = .ok kv ∧ buildPriceDict rest = .ok pd' ∧ pd = kv :: pd' := by
  unfold buildPriceDict at h ⊢
  rw [List.mapM_cons] at h
  cases he : entryKV e with
  | error er => rw [he] at h; simp [bind, Except.bind] at h
  | ok kv =>
      rw [he] at h
      simp only [bind, Except.bind] at h
      cases hr : rest.mapM entryKV with
      | error er => rw [hr] at h; simp [bind, Except.bind] at h
      | ok ys =>
          rw [hr] at h
          simp only [bind, Except.bind, pure, Except.pure, Except.ok.injEq] at h
          exact ⟨kv, ys, rfl, rfl, h.symm⟩

/-- Every key of a successfully built price dict is hashable. -/
theorem buildPriceDict_keys {cat : List JsonVal} {pd : PyDict}
    (hb : buildPriceDict cat = .ok pd) :
    ∀ kv ∈ pd, hashablePy kv.1 = true := by
  induction cat generalizing pd with
  | nil =>
      unfold buildPriceDict at hb
      simp only [List.mapM_nil, pure, Except.pure, Except.ok.injEq] at hb
      subst hb; simp
  | cons e rest ih =>
      obtain ⟨kv, pd', he, hr, rfl⟩ := buildPriceDict_cons hb
      intro x hx
      rcases List.mem_cons.1 hx with h | h
      · subst h; exact entryKV_ok_hashable he
      · exact ih hr x h

/-- A valid sale record (both fields present, catalogued product, numeric
non-negative quantity) is accepted by the loop body and contributes its
catalogue price times its quantity, with no error. -/
theorem rowOutcome_valid {pd : PyDict}
    (hkeys : ∀ kv ∈ pd, hashablePy kv.1 = true)
    (hprice : ∀ kv ∈ pd, isNumericPy kv.2 = true)
    {s : JsonVal} (hs : validSaleB pd s = true) :
    rowOutcome pd s = .ok (saleValue pd s, none) := by
  cases s with
  | obj fs =>
      simp only [validSaleB, Bool.and_eq_true, Bool.not_eq_true'] at hs
      obtain ⟨⟨⟨⟨hp, hq⟩, hmem⟩, hnum⟩, hneg⟩ := hs
      obtain ⟨kv, hkv⟩ := Option.isSome_iff_exists.1 hmem
      have hmempd := dictFind_mem hkv
      have hhash : hashablePy (getOrNull fs "Product") = true :=
        hashable_of_pyEq (hkeys kv hmempd.1) hmempd.2
      have hpnum : isNumericPy kv.2 = true := hprice kv hmempd.1
      have hget : dictGet pd (getOrNull fs "Product") = some kv.2 := by
        rw [dictGet, hkv]; rfl
      obtain ⟨p, hp'⟩ := Option.isSome_iff_exists.1 hpnum
      have hmemb : dictMem pd (getOrNull fs "Product") = true := by
        rw [dictMem, hkv]; rfl
      simp only [rowOutcome, hp, hq, hhash, hmemb, hnum, hneg, hget, Bool.or_self,
        Bool.or_false, Bool.false_or, if_false, Option.getD_some, hp']
      simp [saleValue, hget, hp']
  | null => simp [validSaleB] at hs
  | bool b => simp [validSaleB] at hs
  | num q lit => simp [validSaleB] at hs
  | str x => simp [validSaleB] at hs
  | arr xs => simp [validSaleB] at hs

/-- C1: on a catalogue whose built price mapping has numeric prices and a
sales list whose every record has non-null `Product` and `Quantity`
fields, a catalogued product and a numeric non-negative quantity,
`compute_total_sales` returns the sum over the records of catalogue price
times quantity, with an empty error list. -/
theorem c1_valid_inputs_total (cat sales : List JsonVal) (pd : PyDict)
    (hb : buildPriceDict cat = .ok pd)
    (hpriceB : (pd.all fun kv => isNumericPy kv.2) = true)
    (hsB : sales.all (validSaleB pd) = true) :
    compute_total_sales cat sales = .ok ((sales.map (saleValue pd)).sum, []) := by
  have hprice := List.all_eq_true.1 hpriceB
  have hs := List.all_eq_true.1 hsB
  have hkeys := buildPriceDict_keys hb
  have hrow : ∀ s ∈ sales, rowOutcome pd s = .ok (saleValue pd s, none) :=
    fun s h => rowOutcome_valid hkeys hprice (hs s h)
  have hnr : ∀ s ∈ sales, rowRaises pd s = false := by
    intro s h; rw [rowRaises, hrow s h]
  unfold compute_total_sales
  rw [hb]
  simp only [bind, Except.bind]
  rw [fold_ok_of_no_raise pd sales hnr 0 []]
  have h1 : sales.map (rowContrib pd) = sales.map (saleValue pd) :=
    List.map_congr_left (fun s h => by rw [rowContrib, hrow s h])
  have h2 : sales.filterMap (rowErr pd) = [] :=
    List.filterMap_eq_nil_iff.2 (fun s h => by rw [rowErr, hrow s h])
  rw [h1, h2, zero_add, List.nil_append]

/-- Witness for C1 on the spec scenario: catalogue
`[{"title": "Apple", "price": 2.0}]`, sales
`[{"Product": "Apple", "Quantity": 3}]`. -/
theorem c1_valid_inputs_total_witness :
    compute_total_sales catApple salesApple =
      .ok ((salesApple.map (saleValue pdApple)).sum, []) :=
  c1_valid_inputs_total catApple salesApple pdApple (by rfl) (by decide) (by decide)

/-- C7: in a successful run, every sale record was evaluated without
raising, the returned error list is exactly the per-record errors of the
records, one per invalid record, in encounter order, and the total is the
sum of the per-record contributions. -/
theorem c7_no_early_termination (cat sales : List JsonVal) (pd : PyDict)
    (t : ℚ) (errs : List String)
    (hb : buildPriceDict cat = .ok pd)
    (hc : compute_total_sales cat sales = .ok (t, errs)) :
    errs = sales.filterMap (rowErr pd) ∧ (∀ s ∈ sales, rowRaises pd s = false) ∧
      t = (sales.map (rowContrib pd)).sum :=
  ⟨(compute_ok_char hb hc).2.1, (compute_ok_char hb hc).2.2, (compute_ok_char hb hc).1⟩

/-- Witness for C7 on the Banana scenario. -/
theorem c7_no_early_termination_witness :
    (["Banana no encontrado en el catálogo"] : List String) =
        salesBanana.filterMap (rowErr pdApple) ∧
      (∀ s ∈ salesBanana, rowRaises pdApple s = false) ∧
      (0 : ℚ) = (salesBanana.map (rowContrib pdApple)).sum :=
  c7_no_early_termination catApple salesBanana pdApple 0
    ["Banana no encontrado en el catálogo"] (by rfl) (by rfl)

/-- A catalogue entry the dict comprehension rejects makes the whole build
raise. -/
theorem buildPriceDict_error_of_mem {cat : List JsonVal} {e : JsonVal}
    (hmem : e ∈ cat) {err : PyError} (he : entryKV e = .error err) :
    ∃ err2, buildPriceDict cat = .error err2 := by
  induction cat with
  | nil => simp at hmem
  | cons x rest ih =>
      unfold buildPriceDict
      rw [List.mapM_cons]
      cases hx : entryKV x with
      | error er => exact ⟨er, by simp [bind, Except.bind]⟩
      | ok kv =>
          rcases List.mem_cons.1 hmem with h | h
          · subst h; rw [hx] at he; cases he
          · obtain ⟨err2, herr⟩ := ih h
            refine ⟨err2, ?_⟩
            unfold buildPriceDict at herr
            simp only [bind, Except.bind]
            rw [herr]

/-- C9: a catalogue entry that lacks the "title" key or the "price" key
makes `compute_total_sales` raise an unhandled exception instead of
reporting a row-level error: catalogue entries are never validated. -/
theorem c9_missing_key_raises (cat sales : List JsonVal) (fs : List (String × JsonVal))
    (hmem : JsonVal.obj fs ∈ cat)
    (hkey : objGet fs "title" = none ∨ objGet fs "price" = none) :
    ∃ err, compute_total_sales cat sales = .error err := by
  have he : ∃ err0, entryKV (.obj fs) = .error err0 := by
    rcases hkey with h | h
    · exact ⟨.keyError "title", by simp [entryKV, h]⟩
    · cases ht : objGet fs "title" with
      | none => exact ⟨.keyError "title", by simp [entryKV, ht]⟩
      | some t2 => exact ⟨.keyError "price", by simp [entryKV, ht, h]⟩
  obtain ⟨err0, he⟩ := he
  obtain ⟨err2, herr⟩ := buildPriceDict_error_of_mem hmem he
  refine ⟨err2, ?_⟩
  unfold compute_total_sales
  rw [herr]
  rfl

/-- Witness for C9: a catalogue with one empty record raises already on an
empty sales list. -/
theorem c9_missing_key_raises_witness :
    ∃ err, compute_total_sales [JsonVal.obj []] [] = .error err :=
  c9_missing_key_raises [JsonVal.obj []] [] [] (by simp) (Or.inl (by rfl))

/-- Splitting a successful dict build over a catalogue concatenation. -/
theorem buildPriceDict_append {xs ys : List JsonVal} {pd : PyDict}
    (h : buildPriceDict (xs ++ ys) = .ok pd) :
    ∃ as bs, buildPriceDict xs = .ok as ∧ buildPriceDict ys = .ok bs ∧ pd = as ++ bs := by
  unfold buildPriceDict at h ⊢
  rw [List.mapM_append] at h
  cases h1 : xs.mapM entryKV with
  | error er => rw [h1] at h; simp [bind, Except.bind] at h
  | ok as =>
      rw [h1] at h
      simp only [bind, Except.bind] at h
      cases h2 : ys.mapM entryKV with
      | error er => rw [h2] at h; simp [bind, Except.bind] at h
      | ok bs =>
          rw [h2] at h
          simp only [bind, Except.bind, pure, Except.pure, Except.ok.injEq] at h
          exact ⟨as, bs, rfl, rfl, h.symm⟩

/-- Every pair of a successfully built dict comes from some catalogue
entry. -/
theorem buildPriceDict_mem {cat : List JsonVal} {pd : PyDict}
    (hb : buildPriceDict cat = .ok pd) :
    ∀ kv ∈ pd, ∃ e ∈ cat, entryKV e = .ok kv := by
  induction cat generalizing pd with
  | nil =>
      unfold buildPriceDict at hb
      simp only [List.mapM_nil, pure, Except.pure, Except.ok.injEq] at hb
      subst hb; simp
  | cons e rest ih =>
      obtain ⟨kv, pd2, he, hr, rfl⟩ := buildPriceDict_cons hb
      intro x hx
      rcases List.mem_cons.1 hx with h | h
      · subst h; exact ⟨e, List.mem_cons_self e rest, he⟩
      · obtain ⟨e2, he2, hkv⟩ := ih hr x h
        exact ⟨e2, List.mem_cons_of_mem e he2, hkv⟩

/-- C5: when a catalogue entry `e` carrying title `t` is the last entry
whose title compares equal to `t`, the built price mapping prices `t` at
the price of `e` — last write wins on duplicate titles, so every matching
sale is priced at the last entry with that title. -/
theorem c5_last_write_wins (cat1 cat2 : List JsonVal) (e t p : JsonVal) (pd : PyDict)
    (hb : buildPriceDict (cat1 ++ e :: cat2) = .ok pd)
    (he : entryKV e = .ok (t, p))
    (hlast : ∀ e2 ∈ cat2, ∀ kv, entryKV e2 = .ok kv → pyEq kv.1 t = false) :
    dictGet pd t = some p := by
  obtain ⟨as, bs, h1, h2, rfl⟩ := buildPriceDict_append hb
  obtain ⟨kv, pd2, hkv, hpd2, rfl⟩ := buildPriceDict_cons h2
  rw [he] at hkv
  simp only [Except.ok.injEq] at hkv
  subst hkv
  have htail : pd2.filter (fun kv => pyEq kv.1 t) = [] := by
    rw [List.filter_eq_nil_iff]
    intro kv hkv2
    obtain ⟨e2, he2, hke⟩ := buildPriceDict_mem hpd2 kv hkv2
    simp [hlast e2 he2 kv hke]
  have hself : pyEq t t = true :=
    pyEq_refl_hashable (entryKV_ok_hashable he)
  rw [dictGet, dictFind, List.filter_append, List.filter_cons]
  simp only [hself, if_true, htail]
  rw [List.getLast?_concat]
  rfl

/-- Witness for C5: two "Apple" entries; the mapping prices "Apple" at
the second price. -/
theorem c5_last_write_wins_witness :
    dictGet [(JsonVal.str "Apple", JsonVal.num 2 "2.0"),
             (JsonVal.str "Apple", JsonVal.num 5 "5.0")] (JsonVal.str "Apple") =
      some (JsonVal.num 5 "5.0") :=
  c5_last_write_wins [JsonVal.obj [("title", .str "Apple"), ("price", .num 2 "2.0")]] []
    (JsonVal.obj [("title", .str "Apple"), ("price", .num 5 "5.0")])
    (.str "Apple") (.num 5 "5.0")
    [(JsonVal.str "Apple", JsonVal.num 2 "2.0"), (JsonVal.str "Apple", JsonVal.num 5 "5.0")]
    (by rfl) (by rfl) (by simp)

/-- C3 counterexample: on the spec scenario, the appended error string is
the code's Spanish message, not the claimed English one. -/
theorem c3_counterexample :
    compute_total_sales catApple salesBanana =
        .ok (0, ["Banana no encontrado en el catálogo"]) ∧
      ("Banana no encontrado en el catálogo" : String) ≠ "Banana not found in catalogue" :=
  ⟨by rfl, by decide⟩

/-- C3 (amended): a sale record with non-null fields whose (hashable)
product is not a key of the price mapping makes the loop body append
"<product> no encontrado en el catálogo" and leave the total unchanged. -/
theorem c3_not_found_message (pd : PyDict) (acc : ℚ × List String)
    (fs : List (String × JsonVal))
    (hp : isNull (getOrNull fs "Product") = false)
    (hq : isNull (getOrNull fs "Quantity") = false)
    (hh : hashablePy (getOrNull fs "Product") = true)
    (hm : dictMem pd (getOrNull fs "Product") = false) :
    processSale pd acc (.obj fs) =
      .ok (acc.1, acc.2 ++
        [pyStr (getOrNull fs "Product") ++ " no encontrado en el catálogo"]) := by
  simp [processSale, hp, hq, hh, hm, notFoundMsg]

/-- Witness for the amended C3 on the Banana record. -/
theorem c3_not_found_message_witness :
    processSale pdApple (0, []) (.obj [("Product", .str "Banana"), ("Quantity", .num 1 "1")]) =
      .ok (0, [pyStr (getOrNull [("Product", JsonVal.str "Banana"),
        ("Quantity", JsonVal.num 1 "1")] "Product") ++ " no encontrado en el catálogo"]) :=
  c3_not_found_message pdApple (0, [])
    [("Product", .str "Banana"), ("Quantity", .num 1 "1")] (by rfl) (by rfl) (by rfl) (by rfl)

/-- C4 counterexample: for a negative quantity, the appended error string
is the code's Spanish message, not the claimed English one. -/
theorem c4_counterexample :
    compute_total_sales catApple salesNegQty =
        .ok (0, ["Cantidad -1 inválido para Apple"]) ∧
      ("Cantidad -1 inválido para Apple" : String) ≠ "invalid quantity -1 for Apple" :=
  ⟨by rfl, by decide⟩

/-- C4 (amended): a sale record with non-null fields, a catalogued
product and a non-numeric or negative quantity makes the loop body append
"Cantidad <quantity> inválido para <product>" and leave the total
unchanged. -/
theorem c4_invalid_qty_message (pd : PyDict) (acc : ℚ × List String)
    (fs : List (String × JsonVal))
    (hp : isNull (getOrNull fs "Product") = false)
    (hq : isNull (getOrNull fs "Quantity") = false)
    (hh : hashablePy (getOrNull fs "Product") = true)
    (hm : dictMem pd (getOrNull fs "Product") = true)
    (hbad : isNumericPy (getOrNull fs "Quantity") = false ∨
      qtyNeg (getOrNull fs "Quantity") = true) :
    processSale pd acc (.obj fs) =
      .ok (acc.1, acc.2 ++ ["Cantidad " ++ pyStr (getOrNull fs "Quantity") ++
        " inválido para " ++ pyStr (getOrNull fs "Product")]) := by
  rcases hbad with h | h <;> simp [processSale, hp, hq, hh, hm, h, invalidQtyMsg]

/-- Witness for the amended C4 on the negative-quantity record. -/
theorem c4_invalid_qty_message_witness :
    processSale pdApple (0, []) (.obj [("Product", .str "Apple"), ("Quantity", .num (-1) "-1")]) =
      .ok (0, ["Cantidad " ++ pyStr (getOrNull [("Product", JsonVal.str "Apple"),
        ("Quantity", JsonVal.num (-1) "-1")] "Quantity") ++ " inválido para " ++
        pyStr (getOrNull [("Product", JsonVal.str "Apple"),
          ("Quantity", JsonVal.num (-1) "-1")] "Product")]) :=
  c4_invalid_qty_message pdApple (0, [])
    [("Product", .str "Apple"), ("Quantity", .num (-1) "-1")]
    (by rfl) (by rfl) (by rfl) (by rfl) (Or.inr (by rfl))

/-- C2 counterexample: with both files loaded and the sales sequence
empty, `main` takes the fatal branch of line 106 (an empty list is falsy
in Python) and exits 1, not 0. -/
theorem c2_counterexample :
    mainExitCode 3 (some catApple) (some []) WriteOutcome.ok ≠ 0 := by decide

/-- C2 (amended): `compute_total_sales` on an empty sales sequence does
return total 0.0 with no errors, but the program does not complete
normally there: `main` treats the empty (falsy) sales list like a load
failure and exits 1 whatever the write outcome.  Exit 0 does occur on the
normal path: argument count 3, both loads returning values, a non-empty
sales list, `compute_total_sales` returning, and the results-file write
succeeding. -/
theorem c2_empty_sales_exit (cat : List JsonVal) (pd : PyDict)
    (hb : buildPriceDict cat = .ok pd) :
    compute_total_sales cat [] = .ok (0, []) ∧
      (∀ w, mainExitCode 3 (some cat) (some []) w = 1) ∧
      (∀ (cat2 sales : List JsonVal) (t : ℚ) (errs : List String),
        sales ≠ [] → compute_total_sales cat2 sales = .ok (t, errs) →
        mainExitCode 3 (some cat2) (some sales) .ok = 0) := by
  refine ⟨?_, ?_, ?_⟩
  · unfold compute_total_sales
    rw [hb]
    rfl
  · intro w; rfl
  · intro cat2 sales t errs hne hco
    have hsE : sales.isEmpty = false := by simpa using hne
    unfold mainExitCode
    rw [if_neg (by simp), if_neg (by simp [truthySales, hsE])]
    dsimp only
    rw [hco]

/-- Witness for the amended C2 on concrete inputs. -/
theorem c2_empty_sales_exit_witness :
    compute_total_sales catApple [] = .ok (0, []) ∧
      mainExitCode 3 (some catApple) (some []) WriteOutcome.ok = 1 ∧
      mainExitCode 3 (some catApple) (some salesBanana) WriteOutcome.ok = 0 :=
  ⟨(c2_empty_sales_exit catApple pdApple (by rfl)).1,
   (c2_empty_sales_exit catApple pdApple (by rfl)).2.1 WriteOutcome.ok,
   (c2_empty_sales_exit catApple pdApple (by rfl)).2.2 catApple salesBanana 0
     ["Banana no encontrado en el catálogo"] (by simp [salesBanana]) (by rfl)⟩

/-- Every record `load_csv_file` yields carries exactly the lowercase keys
`product` and `quantity`, a string product and an integer quantity. -/
theorem load_csv_file_shape (file_path : String) (rows : List (List String)) :
    ∀ rec ∈ (load_csv_file file_path rows).1, ∃ p n,
      rec = JsonVal.obj [("product", .str p), ("quantity", .num (n : ℚ) (toString n))] := by
  have main : ∀ (dataRows : List (List String)) (acc : List JsonVal × List String),
      (∀ rec ∈ acc.1, ∃ p n,
        rec = JsonVal.obj [("product", .str p), ("quantity", .num (n : ℚ) (toString n))]) →
      ∀ rec ∈ (dataRows.foldl (csvRowStep file_path) acc).1, ∃ p n,
        rec = JsonVal.obj [("product", .str p), ("quantity", .num (n : ℚ) (toString n))] := by
    intro dataRows
    induction dataRows with
    | nil => intro acc hacc; simpa using hacc
    | cons row rest ih =>
        intro acc hacc
        rw [List.foldl_cons]
        apply ih
        intro rec hrec
        rcases row with _ | ⟨a, _ | ⟨b, _ | ⟨c, tail⟩⟩⟩
        · exact hacc rec (by simpa [csvRowStep] using hrec)
        · exact hacc rec (by simpa [csvRowStep] using hrec)
        · simp only [csvRowStep] at hrec
          cases hn : parseIntPy b with
          | none => rw [hn] at hrec; exact hacc rec (by simpa using hrec)
          | some n =>
              rw [hn] at hrec
              simp only [List.mem_append, List.mem_singleton] at hrec
              rcases hrec with h | h
              · exact hacc rec h
              · exact ⟨a, n, h⟩
        · exact hacc rec (by simpa [csvRowStep] using hrec)
  exact main (rows.drop 1) ([], []) (by simp)

/-- C10: field lookup is case-sensitive on "Product"/"Quantity": every
record in the lowercase-key shape `load_csv_file` produces is reported as
an invalid sales record by the loop body and contributes nothing to the
total. -/
theorem c10_lowercase_keys_rejected (file_path : String) (rows : List (List String))
    (pd : PyDict) (acc : ℚ × List String) :
    ∀ rec ∈ (load_csv_file file_path rows).1,
      processSale pd acc rec = .ok (acc.1, acc.2 ++ [invalidRecordMsg rec]) := by
  intro rec hrec
  obtain ⟨p, n, rfl⟩ := load_csv_file_shape file_path rows rec hrec
  rfl

/-- Witness for C10: the record parsed from the CSV row `Apple,3` is
rejected as an invalid sales record. -/
theorem c10_lowercase_keys_rejected_witness :
    processSale pdApple (0, [])
        (JsonVal.obj [("product", .str "Apple"),
          ("quantity", .num ((3 : Int) : ℚ) (toString (3 : Int)))]) =
      .ok (0, [invalidRecordMsg (JsonVal.obj [("product", .str "Apple"),
        ("quantity", .num ((3 : Int) : ℚ) (toString (3 : Int)))])]) :=
  c10_lowercase_keys_rejected "ventas.csv" [["product", "quantity"], ["Apple", "3"]]
    pdApple (0, [])
    (JsonVal.obj [("product", .str "Apple"),
      ("quantity", .num ((3 : Int) : ℚ) (toString (3 : Int)))])
    (by
      have h : (load_csv_file "ventas.csv" [["product", "quantity"], ["Apple", "3"]]).1 =
          [JsonVal.obj [("product", .str "Apple"),
            ("quantity", .num ((3 : Int) : ℚ) (toString (3 : Int)))]] := rfl
      rw [h]
      exact List.mem_singleton_self _)

/-- Appending different suffixes after a common prefix (a constant plus
the file path) gives different strings. -/
theorem append_suffix_ne (A p : String) {s1 s2 : String} (h : s1 ≠ s2) :
    A ++ p ++ s1 ≠ A ++ p ++ s2 := by
  intro he
  apply h
  apply String.ext
  have h2 := congrArg String.data he
  simp only [String.data_append, List.append_assoc] at h2
  exact List.append_cancel_left (List.append_cancel_left h2)

/-- Strings whose first `k` characters differ stay different under any
appended suffixes. -/
theorem append_ne_of_take_ne (k : Nat) (A B x y : String)
    (hA : k ≤ A.data.length) (hB : k ≤ B.data.length)
    (h : A.data.take k ≠ B.data.take k) : A ++ x ≠ B ++ y := by
  intro he
  apply h
  have h2 := congrArg String.data he
  simp only [String.data_append] at h2
  have h3 := congrArg (List.take k) h2
  rwa [List.take_append_of_le_length hA, List.take_append_of_le_length hB] at h3

/-- C6 counterexample: the loader is not exception-total — a read outcome
outside the caught kinds (e.g. `UnicodeDecodeError` on a non-UTF-8 file,
a `ValueError` that none of the `except` clauses of lines 36–41 covers)
propagates to the caller as an exception, with no diagnostic printed and
no absence value returned. -/
theorem c6_counterexample :
    (load_json_file "ventas.json" (ReadOutcome.uncaught "UnicodeDecodeError")).1 =
        Except.error "UnicodeDecodeError" ∧
      (load_json_file "ventas.json" (ReadOutcome.uncaught "UnicodeDecodeError")).2 = [] :=
  ⟨rfl, rfl⟩

/-- C6 (amended): the loader catches exactly its listed exception kinds:
whenever it returns (rather than re-raises), a loaded sequence means the
document was a parsed top-level array returned unchanged with no
diagnostic, and an absence value comes with exactly one diagnostic that
mentions the file path; an exception reaches the caller only from an
outcome outside the caught kinds; and the diagnostics of the four caught
failure kinds are pairwise distinct. -/
theorem c6_loader_caught_kinds (file_path m : String) (outcome : ReadOutcome) :
    ((∀ xs, (load_json_file file_path outcome).1 = .ok (some xs) →
        outcome = .ok (.arr xs) ∧ (load_json_file file_path outcome).2 = []) ∧
      ((load_json_file file_path outcome).1 = .ok none →
        ∃ d, (load_json_file file_path outcome).2 = [d] ∧
          ∃ a b, d = a ++ (file_path ++ b)) ∧
      (∀ e, (load_json_file file_path outcome).1 = .error e →
        outcome = .uncaught e)) ∧
    ((load_json_file file_path .fileNotFound).2 ≠ (load_json_file file_path .decodeError).2 ∧
      (load_json_file file_path .fileNotFound).2 ≠ (load_json_file file_path (.ok .null)).2 ∧
      (load_json_file file_path .decodeError).2 ≠ (load_json_file file_path (.ok .null)).2 ∧
      (load_json_file file_path (.osError m)).2 ≠ (load_json_file file_path .fileNotFound).2 ∧
      (load_json_file file_path (.osError m)).2 ≠ (load_json_file file_path .decodeError).2 ∧
      (load_json_file file_path (.osError m)).2 ≠ (load_json_file file_path (.ok .null)).2) := by
  constructor
  · refine ⟨?_, ?_, ?_⟩
    · intro xs hxs
      cases outcome with
      | ok v =>
          cases v with
          | arr ys =>
              simp only [load_json_file, Except.ok.injEq, Option.some.injEq] at hxs
              subst hxs; exact ⟨rfl, rfl⟩
          | null => simp [load_json_file] at hxs
          | bool b => simp [load_json_file] at hxs
          | num q lit => simp [load_json_file] at hxs
          | str t => simp [load_json_file] at hxs
          | obj fs => simp [load_json_file] at hxs
      | fileNotFound => simp [load_json_file] at hxs
      | decodeError => simp [load_json_file] at hxs
      | osError m2 => simp [load_json_file] at hxs
      | uncaught m2 => simp [load_json_file] at hxs
    · intro hnone
      cases outcome with
      | ok v =>
          cases v with
          | arr ys => simp [load_json_file] at hnone
          | null =>
              exact ⟨_, rfl, "Error: El archivo ", " no es un JSON válida.",
                (String.append_assoc _ _ _)⟩
          | bool b =>
              exact ⟨_, rfl, "Error: El archivo ", " no es un JSON válida.",
                (String.append_assoc _ _ _)⟩
          | num q lit =>
              exact ⟨_, rfl, "Error: El archivo ", " no es un JSON válida.",
                (String.append_assoc _ _ _)⟩
          | str t =>
              exact ⟨_, rfl, "Error: El archivo ", " no es un JSON válida.",
                (String.append_assoc _ _ _)⟩
          | obj fs =>
              exact ⟨_, rfl, "Error: El archivo ", " no es un JSON válida.",
                (String.append_assoc _ _ _)⟩
      | fileNotFound =>
          exact ⟨_, rfl, "Error: El archivo ", " no se encontró.",
            (String.append_assoc _ _ _)⟩
      | decodeError =>
          exact ⟨_, rfl, "Error: El archivo ", " tiene un formato JSON inválido.",
            (String.append_assoc _ _ _)⟩
      | osError m2 =>
          refine ⟨_, rfl, "Error inesperado al leer ", ": " ++ m2, ?_⟩
          simp [String.append_assoc]
      | uncaught m2 => simp [load_json_file] at hnone
    · intro e he
      cases outcome with
      | ok v =>
          cases v with
          | arr ys => simp [load_json_file] at he
          | null => simp [load_json_file] at he
          | bool b => simp [load_json_file] at he
          | num q lit => simp [load_json_file] at he
          | str t => simp [load_json_file] at he
          | obj fs => simp [load_json_file] at he
      | fileNotFound => simp [load_json_file] at he
      | decodeError => simp [load_json_file] at he
      | osError m2 => simp [load_json_file] at he
      | uncaught m2 =>
          simp only [load_json_file, Except.error.injEq] at he
          rw [he]
  · refine ⟨?_, ?_, ?_, ?_, ?_, ?_⟩ <;>
      simp only [load_json_file, ne_eq, List.cons.injEq, and_true]
    · exact append_suffix_ne _ _ (by decide)
    · exact append_suffix_ne _ _ (by decide)
    · exact append_suffix_ne _ _ (by decide)
    · simp only [String.append_assoc]
      exact append_ne_of_take_ne 6 _ _ _ _ (by decide) (by decide) (by decide)
    · simp only [String.append_assoc]
      exact append_ne_of_take_ne 6 _ _ _ _ (by decide) (by decide) (by decide)
    · simp only [String.append_assoc]
      exact append_ne_of_take_ne 6 _ _ _ _ (by decide) (by decide) (by decide)

/-- Witness for the amended C6: a missing catalogue file yields one
diagnostic naming the path. -/
theorem c6_loader_caught_kinds_witness :
    ∃ d, (load_json_file "precios.json" ReadOutcome.fileNotFound).2 = [d] ∧
      ∃ a b, d = a ++ ("precios.json" ++ b) :=
  (c6_loader_caught_kinds "precios.json" "m" ReadOutcome.fileNotFound).1.2.1 (by rfl)

/-- Folding string append from any accumulator factors the accumulator
out. -/
theorem foldl_append_factor (l : List String) :
    ∀ x : String, l.foldl (· ++ ·) x = x ++ l.foldl (· ++ ·) "" := by
  induction l with
  | nil => intro x; simp [List.foldl_nil]
  | cons a t ih =>
      intro x
      rw [List.foldl_cons, List.foldl_cons, ih (x ++ a), ih ("" ++ a),
        String.empty_append, String.append_assoc]

/-- `String.join` of an empty list. -/
theorem join_nil : String.join [] = "" := rfl

/-- `String.join` peels off the head. -/
theorem join_cons (a : String) (l : List String) :
    String.join (a :: l) = a ++ String.join l := by
  show (a :: l).foldl (· ++ ·) "" = a ++ l.foldl (· ++ ·) ""
  rw [List.foldl_cons, foldl_append_factor l ("" ++ a), String.empty_append]

/-- C8 counterexample: stdout and the results file do not receive the same
text — `print` appends one extra newline after `result_message`. -/
theorem c8_counterexample :
    stdoutReport 0 "0.0001" [] ≠ fileReport 0 "0.0001" [] := by
  intro h
  unfold stdoutReport fileReport errorBlock at h
  simp only [List.isEmpty_nil, if_pos, String.append_empty] at h
  have h2 := congrArg String.length h
  simp [String.length_append] at h2
  exact absurd h2 (by decide)

/-- C8 (amended): the results file consists exactly of the report lines —
the Spanish total line, the Spanish time line and, when errors exist, an
"Errores encontrados:" header plus one ` - ` bullet per error — each
newline-terminated; stdout receives the same lines with one extra blank
line after the time line (from `print`). -/
theorem c8_report_lines (total_cost : ℚ) (execution_time : String) (errors : List String) :
    fileReport total_cost execution_time errors =
        String.join ((reportLines total_cost execution_time errors).map (fun l => l ++ "\n")) ∧
      stdoutReport total_cost execution_time errors =
        String.join (((reportLines total_cost execution_time errors).take 2 ++ [""] ++
          (reportLines total_cost execution_time errors).drop 2).map (fun l => l ++ "\n")) := by
  have hA : ∀ x : String, ("\n" : String) ++ ("Tiempo de ejecución: " ++ x) =
      "\nTiempo de ejecución: " ++ x := fun x => by
    rw [← String.append_assoc]
    exact congrArg (· ++ x) (by decide)
  have hB : ∀ x : String, (" segundos\n" : String) ++ ("\n" ++ x) =
      " segundos\n\n" ++ x := fun x => by
    rw [← String.append_assoc]
    exact congrArg (· ++ x) (by decide)
  have hmap : ∀ es : List String,
      List.map ((fun l => l ++ "\n") ∘ fun e => " - " ++ e) es =
        List.map (fun e => " - " ++ (e ++ "\n")) es :=
    fun es => List.map_congr_left (fun a _ => by simp [String.append_assoc])
  cases errors with
  | nil =>
      constructor <;>
        simp [fileReport, stdoutReport, result_message, errorBlock, reportLines,
          join_cons, join_nil, String.append_assoc, hA, hB]
  | cons e es =>
      constructor <;>
        simp [fileReport, stdoutReport, result_message, errorBlock, reportLines,
          join_cons, join_nil, List.map_map, String.append_assoc, hA, hB, hmap]

end ComputeSales
